import Mathlib

/-!
Shallow embedding of `src/app.py` (LINE bot that pairs an incoming image with
a 5-digit identifier supplied in a follow-up text message and uploads the
image to Google Drive under a derived filename).

The embedding models:
  * `get_chat_key` — derivation of a conversation key from an event source;
  * the global `pending_images` dict — as a function `Store`;
  * `ID_PATTERN.match(text)` for `ID_PATTERN = re.compile(r"^\d{5}$")`,
    together with Python's `str.strip()` applied by the text handler;
  * `upload_image_to_google_drive` — filename construction and the
    success/failure outcomes of the Drive call;
  * `handle_image_message` and `handle_text_message` — the two webhook
    handlers, with external effects (replies sent, image downloads attempted,
    uploads attempted, files created, exceptions escaping the handler)
    recorded explicitly in the result.

External nondeterminism (the wall-clock date, whether the Drive service was
initialised, whether the Drive create call succeeds, whether
`download_image` raises, whether `line_bot_api.reply_message` raises) is
captured in an `Env` record threaded through the handlers.
-/

namespace SHU

/-- Characters stripped by Python's `str.strip()` (Unicode whitespace,
as recognised by `str.isspace`). -/
def isPySpace (c : Char) : Bool :=
  let n := c.toNat
  (9 ≤ n && n ≤ 13) || n = 32 ||
  (0x1c ≤ n && n ≤ 0x1f) || n = 0x85 || n = 0xa0 || n = 0x1680 ||
  (0x2000 ≤ n && n ≤ 0x200a) || n = 0x2028 || n = 0x2029 ||
  n = 0x202f || n = 0x205f || n = 0x3000

/-- Characters matched by Python's `\d` in `re` default (Unicode) mode:
the Unicode decimal-digit category Nd.  The Basic Multilingual Plane
ranges of Nd are listed; supplementary-plane digit ranges are omitted
(they do not affect any claim: ASCII and fullwidth digits suffice). -/
def isPyDigit (c : Char) : Bool :=
  let n := c.toNat
  (0x30 ≤ n && n ≤ 0x39) ||
  (0x660 ≤ n && n ≤ 0x669) || (0x6f0 ≤ n && n ≤ 0x6f9) ||
  (0x7c0 ≤ n && n ≤ 0x7c9) || (0x966 ≤ n && n ≤ 0x96f) ||
  (0x9e6 ≤ n && n ≤ 0x9ef) || (0xa66 ≤ n && n ≤ 0xa6f) ||
  (0xae6 ≤ n && n ≤ 0xaef) || (0xb66 ≤ n && n ≤ 0xb6f) ||
  (0xbe6 ≤ n && n ≤ 0xbef) || (0xc66 ≤ n && n ≤ 0xc6f) ||
  (0xce6 ≤ n && n ≤ 0xcef) || (0xd66 ≤ n && n ≤ 0xd6f) ||
  (0xde6 ≤ n && n ≤ 0xdef) || (0xe50 ≤ n && n ≤ 0xe59) ||
  (0xed0 ≤ n && n ≤ 0xed9) || (0xf20 ≤ n && n ≤ 0xf29) ||
  (0x1040 ≤ n && n ≤ 0x1049) || (0x1090 ≤ n && n ≤ 0x1099) ||
  (0x17e0 ≤ n && n ≤ 0x17e9) || (0x1810 ≤ n && n ≤ 0x1819) ||
  (0x1946 ≤ n && n ≤ 0x194f) || (0x19d0 ≤ n && n ≤ 0x19d9) ||
  (0x1a80 ≤ n && n ≤ 0x1a89) || (0x1a90 ≤ n && n ≤ 0x1a99) ||
  (0x1b50 ≤ n && n ≤ 0x1b59) || (0x1bb0 ≤ n && n ≤ 0x1bb9) ||
  (0x1c40 ≤ n && n ≤ 0x1c49) || (0x1c50 ≤ n && n ≤ 0x1c59) ||
  (0xa620 ≤ n && n ≤ 0xa629) || (0xa8d0 ≤ n && n ≤ 0xa8d9) ||
  (0xa900 ≤ n && n ≤ 0xa909) || (0xa9d0 ≤ n && n ≤ 0xa9d9) ||
  (0xa9f0 ≤ n && n ≤ 0xa9f9) || (0xaa50 ≤ n && n ≤ 0xaa59) ||
  (0xabf0 ≤ n && n ≤ 0xabf9) || (0xff10 ≤ n && n ≤ 0xff19)

/-- Python `str.strip()`: remove leading and trailing whitespace. -/
def pyStrip (s : String) : String :=
  String.mk (((s.data.dropWhile isPySpace).reverse.dropWhile isPySpace).reverse)

/-- Python `ID_PATTERN.match(s)` for `ID_PATTERN = re.compile(r"^\d{5}$")`,
as a Bool (`re.match` returns a match object or `None`; the handler only
tests truthiness).  `re.match` anchors at the start; `\d{5}` consumes five
decimal digits; `$` matches at the end of the string or just before a
trailing newline. -/
def ID_PATTERN_match (s : String) : Bool :=
  let cs := s.data
  (cs.take 5).length == 5 && (cs.take 5).all isPyDigit &&
    ((cs.drop 5).isEmpty || cs.drop 5 == ['\n'])

/-- An event source.  LINE sources carry one of `user_id` / `group_id` /
`room_id`; `none` models an absent or falsy (None / empty-string treated
alike by the `hasattr(...) and source.x` test) attribute. -/
structure Source where
  user_id : Option String
  group_id : Option String
  room_id : Option String
deriving DecidableEq, Repr

/-- Python truthiness of the `hasattr(source, a) and source.a` test. -/
def truthy : Option String → Bool
  | none => false
  | some s => !(s == "")

/-- Model of `get_chat_key(source)`: unify the conversation source into one
key. -/
def get_chat_key (source : Source) : Option String :=
  if truthy source.user_id then some ("user:" ++ source.user_id.getD "")
  else if truthy source.group_id then some ("group:" ++ source.group_id.getD "")
  else if truthy source.room_id then some ("room:" ++ source.room_id.getD "")
  else none

/-- One entry of the `pending_images` dict:
`{"message_id": ..., "remaining": 3}`. -/
structure PendingRecord where
  message_id : String
  remaining : Int
deriving DecidableEq, Repr

/-- The `pending_images` dict, keyed by chat key.  A Python dict maps each
key to at most one value, so a function into `Option` is the exact model. -/
def Store : Type := String → Option PendingRecord

/-- Insertion `pending_images[key] = record` (insert or overwrite). -/
def Store.put (st : Store) (k : String) (r : PendingRecord) : Store :=
  fun k' => if k' = k then some r else st k'

/-- Deletion `del pending_images[key]` (the model is only applied where the
key exists, mirroring the code paths). -/
def Store.remove (st : Store) (k : String) : Store :=
  fun k' => if k' = k then none else st k'

/-- The initial empty `pending_images` dict. -/
def emptyStore : Store := fun _ => none

/-- External circumstances of one handler invocation. -/
structure Env where
  /-- Value of `datetime.now().strftime("%Y%m%d")` at resolution time. -/
  today : String
  /-- truthiness of the global `GOOGLE_DRIVE_SERVICE`. -/
  driveService : Bool
  /-- whether `GOOGLE_DRIVE_SERVICE.files().create(...).execute()` succeeds
  (when it raises, `upload_image_to_google_drive` catches and returns None). -/
  driveCreateOk : Bool
  /-- whether `download_image` returns bytes (`false` = it raises). -/
  downloadOk : Bool
  /-- whether `line_bot_api.reply_message` raises when called. -/
  replyRaises : Bool
deriving DecidableEq, Repr

/-- Reply text of `handle_image_message`. -/
def promptText : String :=
  "已接收圖片！請在接下來 3 則訊息內，立即輸入 5 位數 ID（例如：00001）以完成上傳。"

/-- Success reply of `handle_text_message`, naming the uploaded file. -/
def successText (fn : String) : String :=
  "圖片已成功上傳至 Google Drive！\n檔名為：" ++ fn

/-- Reply when `upload_image_to_google_drive` returns None. -/
def uploadFailText : String :=
  "圖片上傳至 Google Drive 失敗，請檢查 Line Bot 後臺日誌與 Google Drive API 設定。"

/-- Reply sent by the `except` block of `handle_text_message`. -/
def genericErrorText : String :=
  "處理過程中發生錯誤，已取消本次上傳。"

/-- Expiry reply when the 3-message budget is exhausted without a match. -/
def expiryText : String :=
  "三則訊息內未收到 5 位數 ID，本次圖片記錄已取消。請重新傳送圖片。"

/-- Outcome of `upload_image_to_google_drive`: the Python return value
(`filename` on success, `None` on failure — the function catches its own
exceptions and never raises) and the list of files created in Drive. -/
structure UploadResult where
  result : Option String
  filesCreated : List String
deriving DecidableEq, Repr

/-- Model of `upload_image_to_google_drive(image_bytes, bank_tail)`: builds
`f"{today}_{bank_tail}.jpg"` and attempts the Drive create call; on any
failure (service not initialised, or the API call raising) returns None
with no file created. -/
def upload_image_to_google_drive (env : Env) (bank_tail : String) : UploadResult :=
  let filename := env.today ++ "_" ++ bank_tail ++ ".jpg"
  if env.driveService then
    if env.driveCreateOk then ⟨some filename, [filename]⟩
    else ⟨none, []⟩
  else ⟨none, []⟩

/-- The reply chosen by the resolution branch of `handle_text_message`:
`if uploaded_filename: ... success ... else: ... failure ...`. -/
def resolutionReply : Option String → String
  | some fn => successText fn
  | none => uploadFailText

/-- Result of one handler invocation: the final `pending_images` state and
the externally observable effects.  `replies` records each call made to
`line_bot_api.reply_message` (whether or not that call then raises);
`fetches` records each message id passed to `download_image`;
`uploadAttempts` records each bank tail passed to
`upload_image_to_google_drive`; `files` records files actually created in
Drive; `raised` records whether an exception escaped the handler. -/
structure HandlerResult where
  store : Store
  replies : List String
  fetches : List String
  uploadAttempts : List String
  files : List String
  raised : Bool

/-- Model of `handle_image_message(event)` for an event with source `source`
and image message id `imageMessageId`. -/
def handle_image_message (env : Env) (source : Source) (imageMessageId : String)
    (st : Store) : HandlerResult :=
  match get_chat_key source with
  | none => ⟨st, [], [], [], [], false⟩
  | some chat_key =>
      let st1 := st.put chat_key ⟨imageMessageId, 3⟩
      -- the prompt reply is outside any try/except: if it raises, the
      -- exception escapes the handler (record already stored)
      ⟨st1, [promptText], [], [], [], env.replyRaises⟩

/-- Model of `handle_text_message(event)` for an event with source `source`
and raw text `rawText`.  Mirrors the control flow of `src/app.py` lines 182-236:
derive the chat key (return if absent), strip the text, return if no
pending record, decrement `remaining` in place, then either attempt
resolution (on an `ID_PATTERN` match), expire (budget exhausted), or stay
silent. -/
def handle_text_message (env : Env) (source : Source) (rawText : String)
    (st : Store) : HandlerResult :=
  match get_chat_key source with
  | none => ⟨st, [], [], [], [], false⟩
  | some chat_key =>
    let text := pyStrip rawText
    match st chat_key with
    | none => ⟨st, [], [], [], [], false⟩
    | some record =>
      let record1 : PendingRecord := ⟨record.message_id, record.remaining - 1⟩
      let st1 := st.put chat_key record1
      if ID_PATTERN_match text then
        if env.downloadOk then
          let up := upload_image_to_google_drive env text
          let st2 := st1.remove chat_key
          -- the record is deleted before the reply; if the reply raises,
          -- the except block runs `del pending_images[chat_key]` on the
          -- now-absent key: the resulting KeyError escapes the handler and
          -- the generic-error reply is never reached
          ⟨st2, [resolutionReply up.result], [record1.message_id], [text],
            up.filesCreated, env.replyRaises⟩
        else
          -- download_image raised: the except block deletes the record and
          -- sends the generic-error reply (which, if it itself raises,
          -- escapes the handler)
          ⟨st1.remove chat_key, [genericErrorText], [record1.message_id], [],
            [], env.replyRaises⟩
      else if record1.remaining ≤ 0 then
        -- budget exhausted: delete and reply (outside any try/except)
        ⟨st1.remove chat_key, [expiryText], [], [], [], env.replyRaises⟩
      else
        ⟨st1, [], [], [], [], false⟩

/-- Store invariant: every pending record has `remaining` between 1 and 3. -/
def storeInv (st : Store) : Prop :=
  ∀ k r, st k = some r → 1 ≤ r.remaining ∧ r.remaining ≤ 3

/-! ### Concrete fixtures used by witnesses and counterexamples -/

/-- Environment in which download, Drive upload and replies all succeed. -/
def envOk : Env := ⟨"20260101", true, true, true, false⟩

/-- Environment in which `download_image` raises (fetch failure). -/
def envFetchFail : Env := ⟨"20260101", true, true, false, false⟩

/-- Environment in which the Drive upload fails (store failure). -/
def envStoreFail : Env := ⟨"20260101", true, false, true, false⟩

/-- Environment in which `reply_message` raises. -/
def envReplyRaise : Env := ⟨"20260101", true, true, true, true⟩

/-- A direct-chat source with user id `U1`. -/
def srcU1 : Source := ⟨some "U1", none, none⟩

/-- A store holding one fresh pending record for `user:U1`. -/
def st0 : Store := emptyStore.put "user:U1" ⟨"m1", 3⟩

/-! ### Basic store lemmas -/

theorem store_put_self (st : Store) (k : String) (r : PendingRecord) :
    st.put k r k = some r := by
  simp [Store.put]

theorem store_put_ne (st : Store) (k : String) (r : PendingRecord) (k' : String)
    (h : k' ≠ k) : st.put k r k' = st k' := by
  simp [Store.put, h]

theorem store_remove_self (st : Store) (k : String) : st.remove k k = none := by
  simp [Store.remove]

theorem store_remove_ne (st : Store) (k k' : String) (h : k' ≠ k) :
    st.remove k k' = st k' := by
  simp [Store.remove, h]

/-! ### Branch characterizations of the two handlers -/

theorem image_step (env : Env) (src : Source) (mid : String) (st : Store)
    (k : String) (hk : get_chat_key src = some k) :
    handle_image_message env src mid st =
      ⟨st.put k ⟨mid, 3⟩, [promptText], [], [], [], env.replyRaises⟩ := by
  unfold handle_image_message
  rw [hk]

theorem image_no_key (env : Env) (src : Source) (mid : String) (st : Store)
    (hk : get_chat_key src = none) :
    handle_image_message env src mid st = ⟨st, [], [], [], [], false⟩ := by
  unfold handle_image_message
  rw [hk]

theorem text_no_key (env : Env) (src : Source) (raw : String) (st : Store)
    (hk : get_chat_key src = none) :
    handle_text_message env src raw st = ⟨st, [], [], [], [], false⟩ := by
  unfold handle_text_message
  rw [hk]

theorem text_no_pending (env : Env) (src : Source) (raw : String) (st : Store)
    (k : String) (hk : get_chat_key src = some k) (hst : st k = none) :
    handle_text_message env src raw st = ⟨st, [], [], [], [], false⟩ := by
  unfold handle_text_message
  rw [hk]
  dsimp only
  rw [hst]

theorem text_match_fetch_ok (env : Env) (src : Source) (raw : String)
    (st : Store) (k : String) (rec : PendingRecord)
    (hk : get_chat_key src = some k) (hst : st k = some rec)
    (hmatch : ID_PATTERN_match (pyStrip raw) = true)
    (hdl : env.downloadOk = true) :
    handle_text_message env src raw st =
      ⟨(st.put k ⟨rec.message_id, rec.remaining - 1⟩).remove k,
        [resolutionReply (upload_image_to_google_drive env (pyStrip raw)).result],
        [rec.message_id], [pyStrip raw],
        (upload_image_to_google_drive env (pyStrip raw)).filesCreated,
        env.replyRaises⟩ := by
  unfold handle_text_message
  rw [hk]
  dsimp only
  rw [hst]
  dsimp only
  rw [hmatch, hdl]
  rw [if_pos rfl, if_pos rfl]

theorem text_match_fetch_fail (env : Env) (src : Source) (raw : String)
    (st : Store) (k : String) (rec : PendingRecord)
    (hk : get_chat_key src = some k) (hst : st k = some rec)
    (hmatch : ID_PATTERN_match (pyStrip raw) = true)
    (hdl : env.downloadOk = false) :
    handle_text_message env src raw st =
      ⟨(st.put k ⟨rec.message_id, rec.remaining - 1⟩).remove k,
        [genericErrorText], [rec.message_id], [], [], env.replyRaises⟩ := by
  unfold handle_text_message
  rw [hk]
  dsimp only
  rw [hst]
  dsimp only
  rw [hmatch, hdl]
  rw [if_pos rfl, if_neg (by simp)]

theorem text_nonmatch_continue (env : Env) (src : Source) (raw : String)
    (st : Store) (k : String) (rec : PendingRecord)
    (hk : get_chat_key src = some k) (hst : st k = some rec)
    (hmatch : ID_PATTERN_match (pyStrip raw) = false)
    (hrem : ¬ rec.remaining - 1 ≤ 0) :
    handle_text_message env src raw st =
      ⟨st.put k ⟨rec.message_id, rec.remaining - 1⟩, [], [], [], [], false⟩ := by
  unfold handle_text_message
  rw [hk]
  dsimp only
  rw [hst]
  dsimp only
  rw [hmatch]
  rw [if_neg (by simp), if_neg hrem]

theorem text_expire (env : Env) (src : Source) (raw : String)
    (st : Store) (k : String) (rec : PendingRecord)
    (hk : get_chat_key src = some k) (hst : st k = some rec)
    (hmatch : ID_PATTERN_match (pyStrip raw) = false)
    (hrem : rec.remaining - 1 ≤ 0) :
    handle_text_message env src raw st =
      ⟨(st.put k ⟨rec.message_id, rec.remaining - 1⟩).remove k,
        [expiryText], [], [], [], env.replyRaises⟩ := by
  unfold handle_text_message
  rw [hk]
  dsimp only
  rw [hst]
  dsimp only
  rw [hmatch]
  rw [if_neg (by simp), if_pos hrem]

/-! ### Reply texts are pairwise distinguishable where the claims need it -/

theorem successText_ne_expiryText (fn : String) : successText fn ≠ expiryText := by
  intro h
  have hd := congrArg (fun s : String => s.data.head?) h
  simp only [successText, String.data_append, List.head?_append] at hd
  rw [show ("圖片已成功上傳至 Google Drive！\n檔名為：" : String).data.head? =
      some '圖' from rfl, Option.or_some] at hd
  exact absurd hd (by decide)

theorem resolutionReply_ne_expiryText (o : Option String) :
    resolutionReply o ≠ expiryText := by
  cases o with
  | none => exact (by decide : uploadFailText ≠ expiryText)
  | some fn => exact successText_ne_expiryText fn

/-! ### The stripped text never ends in a whitespace character -/

theorem head?_dropWhile_false (p : Char → Bool) :
    ∀ (l : List Char) (a : Char), (l.dropWhile p).head? = some a → p a = false := by
  intro l
  induction l with
  | nil =>
      intro a h
      simp [List.dropWhile] at h
  | cons x xs ih =>
      intro a h
      by_cases hx : p x = true
      · rw [List.dropWhile_cons_of_pos hx] at h
        exact ih a h
      · rw [List.dropWhile_cons_of_neg hx] at h
        simp only [List.head?_cons, Option.some.injEq] at h
        subst h
        simpa using hx

theorem pyStrip_getLast?_not_space (s : String) (c : Char)
    (h : (pyStrip s).data.getLast? = some c) : isPySpace c = false := by
  unfold pyStrip at h
  rw [show (String.mk (((s.data.dropWhile isPySpace).reverse.dropWhile
      isPySpace).reverse)).data = ((s.data.dropWhile isPySpace).reverse.dropWhile
      isPySpace).reverse from rfl, List.getLast?_reverse] at h
  exact head?_dropWhile_false isPySpace _ c h

/-! ### Claims -/

/-- C4 (counterexample): the claim "a text event's content is accepted as an
identifier iff it consists of exactly five ASCII decimal digits with no
leading or trailing characters" is false on the code: the handler strips the
content first, so `" 12345"` (leading space) is accepted and triggers a
fetch; and Python's `\d` matches any Unicode decimal digit, so the fullwidth
string `"１２３４５"`, which contains no ASCII digit, is accepted too. -/
theorem C4_counterexample_strip_and_unicode :
    (handle_text_message envOk srcU1 " 12345" st0).fetches = ["m1"] ∧
    (handle_text_message envOk srcU1 "１２３４５" st0).fetches = ["m1"] ∧
    " 12345".data.all Char.isDigit = false ∧
    "１２３４５".data.all Char.isDigit = false := by
  decide

/-- C4 (amended): a text event's content is accepted as an identifier iff,
after stripping leading and trailing whitespace, it consists of exactly five
Unicode decimal digits (Python `\d`); surrounding whitespace is therefore
permitted, any other surrounding character is not, and non-ASCII decimal
digits are accepted. -/
theorem C4_accept_iff_stripped_five_digits (raw : String) :
    ID_PATTERN_match (pyStrip raw) = true ↔
      ((pyStrip raw).data.length = 5 ∧ (pyStrip raw).data.all isPyDigit = true) := by
  constructor
  · intro h
    unfold ID_PATTERN_match at h
    simp only [Bool.and_eq_true, Bool.or_eq_true, beq_iff_eq, List.isEmpty_iff,
      List.length_take] at h
    obtain ⟨⟨hlen, hall⟩, hend⟩ := h
    have hge : 5 ≤ (pyStrip raw).data.length := by omega
    rcases hend with hnil | hnl
    · have hle : (pyStrip raw).data.length ≤ 5 := List.drop_eq_nil_iff.mp hnil
      have heq : (pyStrip raw).data.length = 5 := by omega
      refine ⟨heq, ?_⟩
      rw [← List.take_of_length_le hle]
      exact hall
    · exfalso
      have hlast : (pyStrip raw).data.getLast? = some '\n' := by
        conv_lhs => rw [← List.take_append_drop 5 (pyStrip raw).data]
        rw [hnl]
        exact List.getLast?_concat _
      have := pyStrip_getLast?_not_space raw '\n' hlast
      simp [isPySpace] at this
  · intro h
    obtain ⟨hlen, hall⟩ := h
    unfold ID_PATTERN_match
    have htake : (pyStrip raw).data.take 5 = (pyStrip raw).data :=
      List.take_of_length_le (by omega)
    have hdrop : (pyStrip raw).data.drop 5 = [] :=
      List.drop_eq_nil_of_le (by omega)
    simp [htake, hdrop, hlen, hall]

/-- C4 witness: the amended characterization instantiated at `" 12345"`,
whose stripped form is five digits and which is accepted. -/
theorem C4_witness : ID_PATTERN_match (pyStrip " 12345") = true := by
  have h := C4_accept_iff_stripped_five_digits " 12345"
  exact h.mpr (by decide)

/-- C1: for a text event whose stripped content matches `ID_PATTERN` while a
pending record exists for the chat key, `download_image` is invoked exactly
once on the stored message id; the pending record is removed for every
fetch/store outcome; on a fetch failure no upload is attempted, no file is
written, and the reply is the failure message of the `except` block; on a
successful fetch the upload is attempted exactly once, and the reply is the
success message naming the stored file when the upload succeeds and the
upload-failure message when it does not (in which case no file is written). -/
theorem C1_match_resolves_once_and_clears (env : Env) (src : Source)
    (raw : String) (st : Store) (k : String) (rec : PendingRecord)
    (hk : get_chat_key src = some k) (hst : st k = some rec)
    (hm : ID_PATTERN_match (pyStrip raw) = true) :
    (handle_text_message env src raw st).store k = none ∧
    (handle_text_message env src raw st).fetches = [rec.message_id] ∧
    (env.downloadOk = false →
      (handle_text_message env src raw st).uploadAttempts = [] ∧
      (handle_text_message env src raw st).files = [] ∧
      (handle_text_message env src raw st).replies = [genericErrorText]) ∧
    (env.downloadOk = true →
      (handle_text_message env src raw st).uploadAttempts = [pyStrip raw]) ∧
    (env.downloadOk = true → env.driveService = true → env.driveCreateOk = true →
      (handle_text_message env src raw st).replies =
        [successText (env.today ++ "_" ++ pyStrip raw ++ ".jpg")] ∧
      (handle_text_message env src raw st).files =
        [env.today ++ "_" ++ pyStrip raw ++ ".jpg"]) ∧
    (env.downloadOk = true → (env.driveService = false ∨ env.driveCreateOk = false) →
      (handle_text_message env src raw st).replies = [uploadFailText] ∧
      (handle_text_message env src raw st).files = []) := by
  cases hdl : env.downloadOk with
  | false =>
      rw [text_match_fetch_fail env src raw st k rec hk hst hm hdl]
      exact ⟨store_remove_self _ _, rfl, fun _ => ⟨rfl, rfl, rfl⟩,
        fun h => absurd h (by simp),
        fun h _ _ => absurd h (by simp),
        fun h _ => absurd h (by simp)⟩
  | true =>
      rw [text_match_fetch_ok env src raw st k rec hk hst hm hdl]
      refine ⟨store_remove_self _ _, rfl,
        fun h => absurd h (by simp),
        fun _ => rfl, ?_, ?_⟩
      · intro _ hds hcr
        simp [upload_image_to_google_drive, hds, hcr, resolutionReply]
      · intro _ hfail
        rcases hfail with hds | hcr
        · simp [upload_image_to_google_drive, hds, resolutionReply]
        · cases hds : env.driveService <;>
            simp [upload_image_to_google_drive, hds, hcr, resolutionReply]

/-- C1 witness: in the all-success environment, the concrete scenario
(pending record for `user:U1`, text `"00001"`) fetches `m1` once, removes
the record, uploads once, and replies with the success message naming the
stored file. -/
theorem C1_witness :
    (handle_text_message envOk srcU1 "00001" st0).store "user:U1" = none ∧
    (handle_text_message envOk srcU1 "00001" st0).fetches = ["m1"] ∧
    (handle_text_message envOk srcU1 "00001" st0).uploadAttempts = [pyStrip "00001"] ∧
    (handle_text_message envOk srcU1 "00001" st0).replies =
      [successText (envOk.today ++ "_" ++ pyStrip "00001" ++ ".jpg")] := by
  have h := C1_match_resolves_once_and_clears envOk srcU1 "00001" st0 "user:U1"
    ⟨"m1", 3⟩ (by decide) (by decide) (by decide)
  exact ⟨h.1, h.2.1, h.2.2.2.1 rfl, (h.2.2.2.2.1 rfl rfl rfl).1⟩

/-- C9: on successful resolution the stored artifact's filename is
`<today>_<id>.jpg` where `<today>` is `datetime.now().strftime("%Y%m%d")`
evaluated at resolution time (inside `upload_image_to_google_drive`) and
`<id>` is the stripped 5-digit text, and the success reply names exactly
that filename. -/
theorem C9_resolution_filename (env : Env) (src : Source) (raw : String)
    (st : Store) (k : String) (rec : PendingRecord)
    (hk : get_chat_key src = some k) (hst : st k = some rec)
    (hm : ID_PATTERN_match (pyStrip raw) = true)
    (hdl : env.downloadOk = true) (hds : env.driveService = true)
    (hcr : env.driveCreateOk = true) :
    (upload_image_to_google_drive env (pyStrip raw)).result =
      some (env.today ++ "_" ++ pyStrip raw ++ ".jpg") ∧
    (handle_text_message env src raw st).files =
      [env.today ++ "_" ++ pyStrip raw ++ ".jpg"] ∧
    (handle_text_message env src raw st).replies =
      [successText (env.today ++ "_" ++ pyStrip raw ++ ".jpg")] := by
  rw [text_match_fetch_ok env src raw st k rec hk hst hm hdl]
  simp [upload_image_to_google_drive, hds, hcr, resolutionReply]

/-- C9 witness: with today = `20260101` and text `"00042"`, the file and the
success reply both carry the name `20260101_00042.jpg`. -/
theorem C9_witness :
    (handle_text_message envOk srcU1 "00042" st0).files = ["20260101_00042.jpg"] ∧
    (handle_text_message envOk srcU1 "00042" st0).replies =
      [successText "20260101_00042.jpg"] := by
  have h := C9_resolution_filename envOk srcU1 "00042" st0 "user:U1" ⟨"m1", 3⟩
    (by decide) (by decide) (by decide) rfl rfl rfl
  refine ⟨?_, ?_⟩
  · rw [h.2.1]
    decide
  · rw [h.2.2]
    decide

/-- C5 (code behavior at the failing input): when fetch and store succeed
but `reply_message` raises, the `except` block's `del pending_images[key]`
hits an already-deleted key; the resulting KeyError escapes the handler
(`raised = true`) and the generic failure reply is never sent — refuting the
claim that every error during resolution is caught and answered with the
generic failure reply. -/
theorem C5_reply_failure_escapes_handler :
    (handle_text_message envReplyRaise srcU1 "00001" st0).raised = true ∧
    genericErrorText ∉ (handle_text_message envReplyRaise srcU1 "00001" st0).replies ∧
    (handle_text_message envReplyRaise srcU1 "00001" st0).store "user:U1" = none := by
  decide

/-- C6: for an image event whose source yields a chat key, after handling
there is exactly one pending record for that key (the dict maps the key to
exactly the new record, all other keys untouched), holding the event's image
message id with a budget of 3, and the prompt reply asking for a 5-digit
identifier within 3 messages is sent. -/
theorem C6_image_creates_pending (env : Env) (src : Source) (mid : String)
    (st : Store) (k : String) (hk : get_chat_key src = some k) :
    (handle_image_message env src mid st).store k = some ⟨mid, 3⟩ ∧
    (∀ k', k' ≠ k → (handle_image_message env src mid st).store k' = st k') ∧
    (handle_image_message env src mid st).replies = [promptText] := by
  rw [image_step env src mid st k hk]
  exact ⟨store_put_self _ _ _, fun k' h => store_put_ne _ _ _ _ h, rfl⟩

/-- C6 witness: an image event from `U1` on the empty store creates the
record `⟨m1, 3⟩` under `user:U1` and sends the prompt. -/
theorem C6_witness :
    (handle_image_message envOk srcU1 "m1" emptyStore).store "user:U1" =
      some ⟨"m1", 3⟩ ∧
    (handle_image_message envOk srcU1 "m1" emptyStore).store "group:G1" =
      emptyStore "group:G1" ∧
    (handle_image_message envOk srcU1 "m1" emptyStore).replies = [promptText] := by
  have h := C6_image_creates_pending envOk srcU1 "m1" emptyStore "user:U1"
    (by decide)
  exact ⟨h.1, h.2.1 "group:G1" (by decide), h.2.2⟩

/-- C7: a second image event for a key already holding a pending record
replaces that record with one holding the new image message id and a budget
reset to 3; if the old image reference lived only at that key (message ids
are unique) and differs from the new one, no record in the resulting store
holds the old reference any more. -/
theorem C7_image_overwrites_pending (env : Env) (src : Source) (mid2 : String)
    (st : Store) (k : String) (rec : PendingRecord)
    (hk : get_chat_key src = some k) (hpending : st k = some rec)
    (hnew : rec.message_id ≠ mid2)
    (honly : ∀ k' r', st k' = some r' → r'.message_id = rec.message_id → k' = k) :
    (handle_image_message env src mid2 st).store k = some ⟨mid2, 3⟩ ∧
    (∀ k' r', (handle_image_message env src mid2 st).store k' = some r' →
      r'.message_id ≠ rec.message_id) := by
  rw [image_step env src mid2 st k hk]
  refine ⟨store_put_self _ _ _, fun k' r' hr' hmid => ?_⟩
  dsimp only at hr'
  by_cases hkk : k' = k
  · subst hkk
    rw [store_put_self] at hr'
    cases hr'
    exact hnew hmid.symm
  · rw [store_put_ne _ _ _ _ hkk] at hr'
    exact hkk (honly k' r' hr' hmid)

/-- C7 witness: with `⟨m1, 1⟩` pending for `user:U1`, a second image `m2`
leaves `⟨m2, 3⟩` there, and `m1` is nowhere in the store (checked at the
only mapped key). -/
theorem C7_witness :
    (handle_image_message envOk srcU1 "m2" (emptyStore.put "user:U1" ⟨"m1", 1⟩)).store
      "user:U1" = some ⟨"m2", 3⟩ ∧
    ∀ r', (handle_image_message envOk srcU1 "m2"
        (emptyStore.put "user:U1" ⟨"m1", 1⟩)).store "user:U1" = some r' →
      r'.message_id ≠ "m1" := by
  have h := C7_image_overwrites_pending envOk srcU1 "m2"
    (emptyStore.put "user:U1" ⟨"m1", 1⟩) "user:U1" ⟨"m1", 1⟩
    (by decide) (by decide) (by decide)
    (fun k' r' hr' hmid => by
      by_contra hne
      rw [store_put_ne _ _ _ _ hne] at hr'
      exact Option.noConfusion hr')
  exact ⟨h.1, fun r' hr' => h.2 "user:U1" r' hr'⟩

/-- C8: the classifier checks the source in fixed precedence order — a
non-empty (truthy) `user_id`, then `group_id`, then `room_id` — returning
the first one found with the `user:` / `group:` / `room:` tag, and `none`
when no identifier is truthy; and an event whose source yields no key is
dropped by both handlers: no reply, no fetch, no upload, no state change,
no escaping exception. -/
theorem C8_classifier_precedence_and_drop (env : Env) :
    (∀ src u, src.user_id = some u → u ≠ "" →
      get_chat_key src = some ("user:" ++ u)) ∧
    (∀ src g, truthy src.user_id = false → src.group_id = some g → g ≠ "" →
      get_chat_key src = some ("group:" ++ g)) ∧
    (∀ src r, truthy src.user_id = false → truthy src.group_id = false →
      src.room_id = some r → r ≠ "" → get_chat_key src = some ("room:" ++ r)) ∧
    (∀ src, truthy src.user_id = false → truthy src.group_id = false →
      truthy src.room_id = false → get_chat_key src = none) ∧
    (∀ src raw st, get_chat_key src = none →
      handle_text_message env src raw st = ⟨st, [], [], [], [], false⟩) ∧
    (∀ src mid st, get_chat_key src = none →
      handle_image_message env src mid st = ⟨st, [], [], [], [], false⟩) := by
  refine ⟨?_, ?_, ?_, ?_, ?_, ?_⟩
  · intro src u hu hne
    unfold get_chat_key
    rw [hu]
    rw [if_pos (by simp [truthy, hne])]
    rfl
  · intro src g hu hg hne
    unfold get_chat_key
    rw [hg, if_neg (by simp [hu]), if_pos (by simp [truthy, hne])]
    rfl
  · intro src r hu hg hr hne
    unfold get_chat_key
    rw [hr, if_neg (by simp [hu]), if_neg (by simp [hg]),
      if_pos (by simp [truthy, hne])]
    rfl
  · intro src hu hg hr
    unfold get_chat_key
    rw [if_neg (by simp [hu]), if_neg (by simp [hg]), if_neg (by simp [hr])]
  · intro src raw st hk
    exact text_no_key env src raw st hk
  · intro src mid st hk
    exact image_no_key env src mid st hk

/-- C8 witness: a source carrying both a user id and a group id classifies
as `user:` (precedence); a source with only empty/absent ids classifies as
`none`, and both handlers drop such an event without touching the store. -/
theorem C8_witness :
    get_chat_key ⟨some "U1", some "G1", some "R1"⟩ = some ("user:" ++ "U1") ∧
    get_chat_key ⟨some "", some "G1", none⟩ = some ("group:" ++ "G1") ∧
    get_chat_key ⟨none, some "", some "R1"⟩ = some ("room:" ++ "R1") ∧
    get_chat_key ⟨some "", none, none⟩ = none ∧
    handle_text_message envOk ⟨some "", none, none⟩ "00001" st0 =
      ⟨st0, [], [], [], [], false⟩ := by
  have h := C8_classifier_precedence_and_drop envOk
  exact ⟨h.1 ⟨some "U1", some "G1", some "R1"⟩ "U1" rfl (by decide),
    h.2.1 ⟨some "", some "G1", none⟩ "G1" (by decide) rfl (by decide),
    h.2.2.1 ⟨none, some "", some "R1"⟩ "R1" (by decide) (by decide) rfl (by decide),
    h.2.2.2.1 ⟨some "", none, none⟩ (by decide) (by decide) (by decide),
    h.2.2.2.2.1 ⟨some "", none, none⟩ "00001" st0
      (h.2.2.2.1 ⟨some "", none, none⟩ (by decide) (by decide) (by decide))⟩

/-- C2: after an image event, each of the first two non-matching text events
leaves the pending record in place (budget 2 then 1) and sends no reply; the
third non-matching text event removes the record and sends the expiry reply;
and any further text event — matching or not — is ignored: no reply, no
fetch, and no state change, because no pending record exists. -/
theorem C2_three_strikes_expiry (env : Env) (src : Source) (k mid : String)
    (st : Store) (t1 t2 t3 t4 : String) (r0 r1 r2 r3 r4 : HandlerResult)
    (hk : get_chat_key src = some k)
    (h1 : ID_PATTERN_match (pyStrip t1) = false)
    (h2 : ID_PATTERN_match (pyStrip t2) = false)
    (h3 : ID_PATTERN_match (pyStrip t3) = false)
    (e0 : r0 = handle_image_message env src mid st)
    (e1 : r1 = handle_text_message env src t1 r0.store)
    (e2 : r2 = handle_text_message env src t2 r1.store)
    (e3 : r3 = handle_text_message env src t3 r2.store)
    (e4 : r4 = handle_text_message env src t4 r3.store) :
    r1.store k = some ⟨mid, 2⟩ ∧ r1.replies = [] ∧
    r2.store k = some ⟨mid, 1⟩ ∧ r2.replies = [] ∧
    r3.store k = none ∧ r3.replies = [expiryText] ∧
    r4.store = r3.store ∧ r4.replies = [] ∧ r4.fetches = [] := by
  subst e0 e1 e2 e3 e4
  rw [image_step env src mid st k hk]
  dsimp only
  rw [text_nonmatch_continue env src t1 _ k ⟨mid, 3⟩ hk (store_put_self _ _ _)
    h1 (by norm_num)]
  dsimp only
  rw [text_nonmatch_continue env src t2 _ k ⟨mid, 3 - 1⟩ hk (store_put_self _ _ _)
    h2 (by norm_num)]
  dsimp only
  rw [text_expire env src t3 _ k ⟨mid, 3 - 1 - 1⟩ hk (store_put_self _ _ _)
    h3 (by norm_num)]
  dsimp only
  rw [text_no_pending env src t4 _ k hk (store_remove_self _ _)]
  refine ⟨?_, rfl, ?_, rfl, store_remove_self _ _, rfl, rfl, rfl, rfl⟩
  · rw [store_put_self]
    norm_num
  · rw [store_put_self]
    norm_num

/-- C2 witness: image then `"xx"`, `"yy"`, `"zz"` expires the record with
the expiry reply, and a subsequent `"00001"` triggers no fetch. -/
theorem C2_witness :
    (handle_text_message envOk srcU1 "zz"
      (handle_text_message envOk srcU1 "yy"
        (handle_text_message envOk srcU1 "xx"
          (handle_image_message envOk srcU1 "img" emptyStore).store).store).store).replies
      = [expiryText] ∧
    (handle_text_message envOk srcU1 "00001"
      (handle_text_message envOk srcU1 "zz"
        (handle_text_message envOk srcU1 "yy"
          (handle_text_message envOk srcU1 "xx"
            (handle_image_message envOk srcU1 "img"
              emptyStore).store).store).store).store).fetches = [] := by
  have h := C2_three_strikes_expiry envOk srcU1 "user:U1" "img" emptyStore
    "xx" "yy" "zz" "00001" _ _ _ _ _ (by decide) (by decide) (by decide)
    (by decide) rfl rfl rfl rfl rfl
  exact ⟨h.2.2.2.2.2.1, h.2.2.2.2.2.2.2.2⟩

/-- C3: on every text event with a pending record the budget is decremented
before the match test: a matching text always triggers the fetch (exactly
one download attempt) and never produces the expiry reply — in particular
when `remaining` was 1 and the decrement reaches 0 in the same step — and a
non-matching text triggers no fetch and leaves the decremented record
exactly when the decremented budget is still positive. -/
theorem C3_decrement_precedes_match (env : Env) (src : Source) (raw : String)
    (st : Store) (k : String) (rec : PendingRecord)
    (hk : get_chat_key src = some k) (hst : st k = some rec) :
    (ID_PATTERN_match (pyStrip raw) = true →
      (handle_text_message env src raw st).fetches = [rec.message_id] ∧
      expiryText ∉ (handle_text_message env src raw st).replies ∧
      (handle_text_message env src raw st).store k = none) ∧
    (ID_PATTERN_match (pyStrip raw) = false →
      (handle_text_message env src raw st).fetches = [] ∧
      (handle_text_message env src raw st).store k =
        (if rec.remaining - 1 ≤ 0 then none
         else some ⟨rec.message_id, rec.remaining - 1⟩)) := by
  constructor
  · intro hm
    cases hdl : env.downloadOk with
    | true =>
        rw [text_match_fetch_ok env src raw st k rec hk hst hm hdl]
        refine ⟨rfl, ?_, store_remove_self _ _⟩
        intro hmem
        rw [List.mem_singleton] at hmem
        exact resolutionReply_ne_expiryText _ hmem.symm
    | false =>
        rw [text_match_fetch_fail env src raw st k rec hk hst hm hdl]
        refine ⟨rfl, ?_, store_remove_self _ _⟩
        intro hmem
        rw [List.mem_singleton] at hmem
        exact absurd hmem (by decide)
  · intro hm
    by_cases hrem : rec.remaining - 1 ≤ 0
    · rw [text_expire env src raw st k rec hk hst hm hrem, if_pos hrem]
      exact ⟨rfl, store_remove_self _ _⟩
    · rw [text_nonmatch_continue env src raw st k rec hk hst hm hrem, if_neg hrem]
      exact ⟨rfl, store_put_self _ _ _⟩

/-- C3 witness: with `remaining = 1` (the third allowed message), the
matching text `"00001"` still fetches `m1` and the expiry reply is not
sent; the record is removed by resolution. -/
theorem C3_witness :
    (handle_text_message envOk srcU1 "00001"
      (emptyStore.put "user:U1" ⟨"m1", 1⟩)).fetches = ["m1"] ∧
    expiryText ∉ (handle_text_message envOk srcU1 "00001"
      (emptyStore.put "user:U1" ⟨"m1", 1⟩)).replies ∧
    (handle_text_message envOk srcU1 "00001"
      (emptyStore.put "user:U1" ⟨"m1", 1⟩)).store "user:U1" = none := by
  have h := C3_decrement_precedes_match envOk srcU1 "00001"
    (emptyStore.put "user:U1" ⟨"m1", 1⟩) "user:U1" ⟨"m1", 1⟩
    (by decide) (by decide)
  exact h.1 (by decide)

/-- C10: the invariant "every pending record has `remaining` between 1 and
3" holds of the initial store and is preserved by both handlers; moreover a
text event can only leave a given key's record unchanged, decrement it in
place (same message id), or remove it — its budget never increases during
its lifetime. -/
theorem C10_budget_invariant (env : Env) (src : Source) (st : Store)
    (hinv : storeInv st) :
    storeInv emptyStore ∧
    (∀ mid, storeInv (handle_image_message env src mid st).store) ∧
    (∀ raw, storeInv (handle_text_message env src raw st).store) ∧
    (∀ raw k rec, st k = some rec →
      (handle_text_message env src raw st).store k = none ∨
      (handle_text_message env src raw st).store k = some rec ∨
      (handle_text_message env src raw st).store k =
        some ⟨rec.message_id, rec.remaining - 1⟩) := by
  refine ⟨?_, ?_, ?_, ?_⟩
  · intro k r h
    exact Option.noConfusion h
  · intro mid
    cases hgk : get_chat_key src with
    | none =>
        rw [image_no_key env src mid st hgk]
        exact hinv
    | some k =>
        rw [image_step env src mid st k hgk]
        intro k' r' h'
        dsimp only at h'
        by_cases hkk : k' = k
        · subst hkk
          rw [store_put_self] at h'
          cases h'
          exact ⟨by norm_num, by norm_num⟩
        · rw [store_put_ne _ _ _ _ hkk] at h'
          exact hinv k' r' h'
  · intro raw
    cases hgk : get_chat_key src with
    | none =>
        rw [text_no_key env src raw st hgk]
        exact hinv
    | some k =>
        cases hpk : st k with
        | none =>
            rw [text_no_pending env src raw st k hgk hpk]
            exact hinv
        | some rec =>
            have hbds := hinv k rec hpk
            cases hm : ID_PATTERN_match (pyStrip raw) with
            | true =>
                cases hdl : env.downloadOk with
                | true =>
                    rw [text_match_fetch_ok env src raw st k rec hgk hpk hm hdl]
                    intro k' r' h'
                    dsimp only at h'
                    by_cases hkk : k' = k
                    · subst hkk
                      rw [store_remove_self] at h'
                      exact Option.noConfusion h'
                    · rw [store_remove_ne _ _ _ hkk,
                        store_put_ne _ _ _ _ hkk] at h'
                      exact hinv k' r' h'
                | false =>
                    rw [text_match_fetch_fail env src raw st k rec hgk hpk hm hdl]
                    intro k' r' h'
                    dsimp only at h'
                    by_cases hkk : k' = k
                    · subst hkk
                      rw [store_remove_self] at h'
                      exact Option.noConfusion h'
                    · rw [store_remove_ne _ _ _ hkk,
                        store_put_ne _ _ _ _ hkk] at h'
                      exact hinv k' r' h'
            | false =>
                by_cases hrem : rec.remaining - 1 ≤ 0
                · rw [text_expire env src raw st k rec hgk hpk hm hrem]
                  intro k' r' h'
                  dsimp only at h'
                  by_cases hkk : k' = k
                  · subst hkk
                    rw [store_remove_self] at h'
                    exact Option.noConfusion h'
                  · rw [store_remove_ne _ _ _ hkk,
                      store_put_ne _ _ _ _ hkk] at h'
                    exact hinv k' r' h'
                · rw [text_nonmatch_continue env src raw st k rec hgk hpk hm hrem]
                  intro k' r' h'
                  dsimp only at h'
                  by_cases hkk : k' = k
                  · subst hkk
                    rw [store_put_self] at h'
                    cases h'
                    constructor <;> dsimp only <;> omega
                  · rw [store_put_ne _ _ _ _ hkk] at h'
                    exact hinv k' r' h'
  · intro raw k rec hrec
    cases hgk : get_chat_key src with
    | none =>
        rw [text_no_key env src raw st hgk]
        exact Or.inr (Or.inl hrec)
    | some k0 =>
        cases hpk : st k0 with
        | none =>
            rw [text_no_pending env src raw st k0 hgk hpk]
            exact Or.inr (Or.inl hrec)
        | some rec0 =>
            by_cases hkk : k = k0
            · subst hkk
              rw [hrec] at hpk
              cases hpk
              cases hm : ID_PATTERN_match (pyStrip raw) with
              | true =>
                  cases hdl : env.downloadOk with
                  | true =>
                      rw [text_match_fetch_ok env src raw st k rec hgk hrec hm hdl]
                      exact Or.inl (store_remove_self _ _)
                  | false =>
                      rw [text_match_fetch_fail env src raw st k rec hgk hrec hm hdl]
                      exact Or.inl (store_remove_self _ _)
              | false =>
                  by_cases hrem : rec.remaining - 1 ≤ 0
                  · rw [text_expire env src raw st k rec hgk hrec hm hrem]
                    exact Or.inl (store_remove_self _ _)
                  · rw [text_nonmatch_continue env src raw st k rec hgk hrec hm hrem]
                    exact Or.inr (Or.inr (store_put_self _ _ _))
            · cases hm : ID_PATTERN_match (pyStrip raw) with
              | true =>
                  cases hdl : env.downloadOk with
                  | true =>
                      rw [text_match_fetch_ok env src raw st k0 rec0 hgk hpk hm hdl]
                      refine Or.inr (Or.inl ?_)
                      dsimp only
                      rw [store_remove_ne _ _ _ hkk, store_put_ne _ _ _ _ hkk]
                      exact hrec
                  | false =>
                      rw [text_match_fetch_fail env src raw st k0 rec0 hgk hpk hm hdl]
                      refine Or.inr (Or.inl ?_)
                      dsimp only
                      rw [store_remove_ne _ _ _ hkk, store_put_ne _ _ _ _ hkk]
                      exact hrec
              | false =>
                  by_cases hrem : rec0.remaining - 1 ≤ 0
                  · rw [text_expire env src raw st k0 rec0 hgk hpk hm hrem]
                    refine Or.inr (Or.inl ?_)
                    dsimp only
                    rw [store_remove_ne _ _ _ hkk, store_put_ne _ _ _ _ hkk]
                    exact hrec
                  · rw [text_nonmatch_continue env src raw st k0 rec0 hgk hpk hm hrem]
                    refine Or.inr (Or.inl ?_)
                    dsimp only
                    rw [store_put_ne _ _ _ _ hkk]
                    exact hrec

/-- C10 witness: the invariant holds after an image event and after a
non-matching text event on the concrete store holding `⟨m1, 3⟩`. -/
theorem C10_witness :
    storeInv (handle_image_message envOk srcU1 "m2" st0).store ∧
    storeInv (handle_text_message envOk srcU1 "xx" st0).store := by
  have hinv : storeInv st0 := by
    intro k r h
    simp only [st0] at h
    by_cases hk : k = "user:U1"
    · subst hk
      rw [store_put_self] at h
      cases h
      exact ⟨by norm_num, by norm_num⟩
    · rw [store_put_ne _ _ _ _ hk] at h
      exact Option.noConfusion h
  have h := C10_budget_invariant envOk srcU1 st0 hinv
  exact ⟨h.2.1 "m2", h.2.2.1 "xx"⟩

end SHU
